import Mathlib

/-!
# Verification of the validation framework in
# `api_testing/Validation_Testing/validation_testing.py`

This file gives a shallow embedding of the core validator framework
(`ValidationError`, `ValidationResult`, and the validator classes
`StringValidator`, `NumberValidator`, `BooleanValidator`, `DateValidator`,
`ListValidator`, `DictValidator`, `UnionValidator`, `OptionalValidator`,
and the schema compiler `JSONSchemaValidator`) and proves properties of it.

Modelling conventions:
* Python runtime values are the inductive `Value`.  Python `float` is
  modelled by `Rat` (the claims under study only use the float *type tag*
  and order comparisons; non-finite floats are outside the model).
  `datetime.date` is modelled by its ordinal day number (an `Int`).
* `isinstance` is translated faithfully, including the Python fact that
  `bool` is a subclass of `int` (so `isinstance(True, int)` holds).
* A compiled regex (`re.compile(pattern)`) is modelled as the pair of its
  source text and its match predicate; `strptime` with a fixed format
  string is modelled as the pair of the format text and a partial parse
  function `String → Option Int` (the `Option` models the `ValueError`
  that the source catches).
* Rendering of numbers inside error message strings uses Lean's
  `toString`; it agrees with Python for integers, which is all the
  concrete inputs below use.
-/

namespace ValidationTesting

/-- Python runtime values, as far as the validator framework inspects them. -/
inductive Value where
  | none
  | bool (b : Bool)
  | int (n : Int)
  | float (q : Rat)
  | str (s : String)
  | date (d : Int)
  | list (items : List Value)
  | dict (entries : List (String × Value))

/-- `type(value).__name__` for the modelled value kinds. -/
def pyTypeName : Value → String
  | .none => "NoneType"
  | .bool _ => "bool"
  | .int _ => "int"
  | .float _ => "float"
  | .str _ => "str"
  | .date _ => "date"
  | .list _ => "list"
  | .dict _ => "dict"

/-- `isinstance(value, str)`. -/
def isStr : Value → Bool
  | .str _ => true
  | _ => false

/-- `isinstance(value, int)`.  In Python `bool` is a subclass of `int`,
so booleans pass this check. -/
def isPyInt : Value → Bool
  | .int _ => true
  | .bool _ => true
  | _ => false

/-- `isinstance(value, (int, float))` (again, booleans pass). -/
def isPyNum : Value → Bool
  | .int _ => true
  | .bool _ => true
  | .float _ => true
  | _ => false

/-- `isinstance(value, bool)`. -/
def isBool : Value → Bool
  | .bool _ => true
  | _ => false

/-- `isinstance(value, datetime.date)`. -/
def isDate : Value → Bool
  | .date _ => true
  | _ => false

/-- The numeric value a Python number compares with (`True == 1`,
`False == 0`). -/
def pyNum : Value → Rat
  | .int n => (n : Rat)
  | .bool b => if b then 1 else 0
  | .float q => q
  | _ => 0

mutual

/-- `repr(value)`, only used (via `str`) by the uniqueness check of
`ListValidator`; container rendering follows Python's shape. -/
def pyRepr : Value → String
  | .none => "None"
  | .bool b => if b then "True" else "False"
  | .int n => toString n
  | .float q => toString q
  | .str s => "\x27" ++ s ++ "\x27"
  | .date d => "datetime.date.fromordinal(" ++ toString d ++ ")"
  | .list xs => "[" ++ pyReprList xs ++ "]"
  | .dict es => "\x7b" ++ pyReprEntries es ++ "\x7d"

/-- Comma-joined `repr`s of list elements. -/
def pyReprList : List Value → String
  | [] => ""
  | [x] => pyRepr x
  | x :: xs => pyRepr x ++ ", " ++ pyReprList xs

/-- Comma-joined `repr`s of dict entries. -/
def pyReprEntries : List (String × Value) → String
  | [] => ""
  | [(k, x)] => "\x27" ++ k ++ "\x27: " ++ pyRepr x
  | (k, x) :: es => "\x27" ++ k ++ "\x27: " ++ pyRepr x ++ ", " ++ pyReprEntries es

end

/-- `str(value)`: identity on strings, `repr`-like otherwise. -/
def pyStr : Value → String
  | .str s => s
  | v => pyRepr v

/-- `ValidationError` (`validation_testing.py` lines 21-28): carries a
message, an optional dotted field path, and a details mapping.  The only
key the framework ever puts into `details` is `"errors"`, a list of
messages, so `details` is modelled as that list (empty when the source
passes no details). -/
structure ValidationError where
  message : String
  field : Option String
  details : List String
deriving DecidableEq, Repr

/-- `ValidationResult` (lines 31-45): a validity flag and a list of
errors. -/
structure ValidationResult where
  is_valid : Bool
  errors : List ValidationError
deriving DecidableEq, Repr

/-- `ValidationResult.add_error` (lines 38-41): sets `is_valid` to
`False` and appends the error. -/
def ValidationResult.addError (r : ValidationResult) (e : ValidationError) : ValidationResult :=
  { is_valid := false, errors := r.errors ++ [e] }

/-- A `ValidationResult(True)` to which the given errors have been added
in order by `add_error`; every validator builds its result this way. -/
def fromErrors (es : List ValidationError) : ValidationResult :=
  es.foldl ValidationResult.addError ⟨true, []⟩

/-- Python truthiness suffix `f".{error.field}" if error.field else ""`
used at lines 258, 302: `None` and the empty string both yield `""`. -/
def dotted : Option String → String
  | some f => if f.isEmpty then "" else "." ++ f
  | Option.none => ""

/-- The in-place update `error.field = f"[{i}]" + (f".{error.field}" if
error.field else "")` performed by `ListValidator.validate` (line 258) on
a child error object: the result is the same error after the assignment. -/
def prefixIndex (i : Nat) (e : ValidationError) : ValidationError :=
  { e with field := some ("[" ++ toString i ++ "]" ++ dotted e.field) }

/-- The in-place update `error.field = f"{field}" + (f".{error.field}" if
error.field else "")` performed by `DictValidator.validate` (line 302) on
a child error object: the result is the same error after the assignment. -/
def prefixField (f : String) (e : ValidationError) : ValidationError :=
  { e with field := some (f ++ dotted e.field) }

/-- `f"Expected {expected} but got {type(value).__name__}"` errors. -/
def typeError (expected : String) (v : Value) : ValidationError :=
  ⟨"Expected " ++ expected ++ " but got " ++ pyTypeName v, Option.none, []⟩

/-- Configuration of `StringValidator` (lines 76-82).  `pattern` is the
compiled regex: its source text (for the error message) and its
`.match` predicate. -/
structure StringCfg where
  min_length : Nat := 0
  max_length : Option Nat := Option.none
  pattern : Option (String × (String → Bool)) := Option.none
  allowed_values : Option (List String) := Option.none

/-- Configuration of `NumberValidator` (lines 118-127). -/
structure NumberCfg where
  min_value : Option Rat := Option.none
  max_value : Option Rat := Option.none
  integer_only : Bool := false
  allow_negative : Bool := true
  allow_zero : Bool := true

/-- Configuration of `DateValidator` (lines 178-183).  `format_str` is
the format text together with the `strptime` parse for that format;
`Option.none` as parse outcome models the caught `ValueError`. -/
structure DateCfg where
  min_date : Option Int := Option.none
  max_date : Option Int := Option.none
  format_str : Option (String × (String → Option Int)) := Option.none

/-- The range and sign checks of `NumberValidator.validate` (lines
143-157), applied to the numeric value `x` of the input. -/
def numberRangeErrors (cfg : NumberCfg) (x : Rat) : List ValidationError :=
  (match cfg.min_value with
    | some m =>
      if x < m then
        [⟨"Value must be at least " ++ toString m, Option.none, []⟩]
      else []
    | Option.none => [])
  ++ (match cfg.max_value with
      | some m =>
        if x > m then
          [⟨"Value must not exceed " ++ toString m, Option.none, []⟩]
        else []
      | Option.none => [])
  ++ (if !cfg.allow_negative && x < 0 then
        [⟨"Negative values are not allowed", Option.none, []⟩] else [])
  ++ (if !cfg.allow_zero && x == 0 then
        [⟨"Zero value is not allowed", Option.none, []⟩] else [])

/-- The range checks of `DateValidator.validate` (lines 203-211); dates
are truthy in Python, so `if self.min_date and ...` is an `is not None`
test. -/
def dateRangeErrors (cfg : DateCfg) (d : Int) : List ValidationError :=
  (match cfg.min_date with
    | some m =>
      if d < m then
        [⟨"Date must be on or after " ++ toString m, Option.none, []⟩] else []
    | Option.none => [])
  ++ (match cfg.max_date with
      | some m =>
        if d > m then
          [⟨"Date must be on or before " ++ toString m, Option.none, []⟩] else []
      | Option.none => [])


/-- The aggregate error built by `UnionValidator.validate` when every
candidate failed (lines 326-328): its details are all collected messages. -/
def unionAggregate (acc : List ValidationError) : ValidationError :=
  ⟨"Value did not match any of the expected types", Option.none,
    acc.map (fun e => e.message)⟩

/-- The validator tree: one constructor per core validator class of the
source.  `opt` is `OptionalValidator`. -/
inductive Validator where
  | string (cfg : StringCfg)
  | number (cfg : NumberCfg)
  | boolean
  | date (cfg : DateCfg)
  | list (item_validator : Option Validator) (min_length : Nat)
      (max_length : Option Nat) (unique_items : Bool)
  | dict (schema : List (String × Validator)) (required_fields : List String)
      (allow_unknown : Bool)
  | union (validators : List Validator)
  | opt (validator : Validator)

mutual

/-- The `validate` methods of the core validator classes (lines 84-112,
129-159, 165-172, 185-212, 230-261, 274-305, 314-329, 338-341),
dispatched on the validator tree. -/
def validate : Validator → Value → ValidationResult
  | .string cfg, v =>
    match v with
    | .str s =>
      fromErrors (
        (if s.length < cfg.min_length then
          [⟨"String length must be at least " ++ toString cfg.min_length ++
            " characters", Option.none, []⟩] else [])
        ++ (match cfg.max_length with
            | some m =>
              if s.length > m then
                [⟨"String length must not exceed " ++ toString m ++
                  " characters", Option.none, []⟩] else []
            | Option.none => [])
        ++ (match cfg.pattern with
            | some p =>
              if p.2 s then [] else
                [⟨"String does not match required pattern " ++ p.1,
                  Option.none, []⟩]
            | Option.none => [])
        ++ (match cfg.allowed_values with
            | some (a :: rest) =>
              if s ∈ a :: rest then [] else
                [⟨"Value must be one of: " ++ String.intercalate ", " (a :: rest),
                  Option.none, []⟩]
            | _ => []))
    | v => fromErrors [typeError "string" v]
  | .number cfg, v =>
    if cfg.integer_only && !isPyInt v then
      fromErrors [typeError "integer" v]
    else if !isPyNum v then
      fromErrors [typeError "number" v]
    else
      fromErrors (numberRangeErrors cfg (pyNum v))
  | .boolean, v =>
    if isBool v then fromErrors [] else fromErrors [typeError "boolean" v]
  | .date cfg, v =>
    match v, cfg.format_str with
    | .str s, some fmt =>
      (match fmt.2 s with
        | some d =>
          fromErrors (dateRangeErrors cfg d)
        | Option.none =>
          fromErrors
            [⟨"Date string does not match format " ++ fmt.1, Option.none, []⟩])
    | .date d, _ =>
      fromErrors (dateRangeErrors cfg d)
    | v, _ => fromErrors [typeError "date" v]
  | .list item_validator min_length max_length unique_items, v =>
    match v with
    | .list xs =>
      fromErrors (
        (if xs.length < min_length then
          [⟨"List must contain at least " ++ toString min_length ++ " items",
            Option.none, []⟩] else [])
        ++ (match max_length with
            | some m =>
              if xs.length > m then
                [⟨"List must not contain more than " ++ toString m ++ " items",
                  Option.none, []⟩] else []
            | Option.none => [])
        ++ (if unique_items ∧ xs.length ≠ (xs.map pyStr).dedup.length then
              [⟨"List items must be unique", Option.none, []⟩] else [])
        ++ (match item_validator with
            | some iv => listItemErrors iv xs 0
            | Option.none => []))
    | v => fromErrors [typeError "list" v]
  | .dict schema required_fields allow_unknown, v =>
    match v with
    | .dict entries =>
      fromErrors (
        (match required_fields.filter (fun f => (entries.lookup f).isNone) with
          | [] => []
          | m :: ms =>
            [⟨"Missing required fields: " ++ String.intercalate ", " (m :: ms),
              Option.none, []⟩])
        ++ (if allow_unknown then [] else
              match (entries.map Prod.fst).filter
                  (fun f => (schema.lookup f).isNone) with
              | [] => []
              | u :: us =>
                [⟨"Unknown fields: " ++ String.intercalate ", " (u :: us),
                  Option.none, []⟩])
        ++ dictFieldErrors schema entries)
    | v => fromErrors [typeError "dictionary" v]
  | .union [], _ => ⟨true, []⟩
  | .union (v0 :: rest), v => unionGo (v0 :: rest) v []
  | .opt vd, v =>
    match v with
    | .none => ⟨true, []⟩
    | v => validate vd v
termination_by v _ => (sizeOf v, 0)

/-- The item loop of `ListValidator.validate` (lines 253-259): validate
each element, rewrite the field of each error of an invalid element with
its index, and collect the rewritten errors in order. -/
def listItemErrors (iv : Validator) : List Value → Nat → List ValidationError
  | [], _ => []
  | x :: xs, i =>
    (if (validate iv x).is_valid then []
     else (validate iv x).errors.map (prefixIndex i))
    ++ listItemErrors iv xs (i + 1)
termination_by xs _ => (sizeOf iv, 1 + sizeOf xs)

/-- The field loop of `DictValidator.validate` (lines 296-303): for each
schema field present in the value, validate it and collect its errors
with the field name prepended. -/
def dictFieldErrors : List (String × Validator) → List (String × Value) → List ValidationError
  | [], _ => []
  | (f, vd) :: rest, entries =>
    (match entries.lookup f with
      | some xv =>
        if (validate vd xv).is_valid then []
        else (validate vd xv).errors.map (prefixField f)
      | Option.none => [])
    ++ dictFieldErrors rest entries
termination_by schema _ => (sizeOf schema, 0)

/-- The loop of `UnionValidator.validate` (lines 318-329): return the
first valid child result; otherwise accumulate every child error and
produce the single aggregate error whose details are all the collected
messages. -/
def unionGo : List Validator → Value → List ValidationError → ValidationResult
  | [], _, acc =>
    ValidationResult.addError ⟨false, []⟩ (unionAggregate acc)
  | vd :: rest, v, acc =>
    if (validate vd v).is_valid then validate vd v
    else unionGo rest v (acc ++ (validate vd v).errors)
termination_by vs _ _ => (sizeOf vs, 0)

end


/-- The nested dict validator of claim C1: `{"b": StringValidator()}` with
`"b"` required. -/
def innerDictC1 : Validator := .dict [("b", .string {})] ["b"] false

/-- A `ListValidator` whose items are `innerDictC1`. -/
def listC1 : Validator := .list (some innerDictC1) 0 Option.none false

/-- The outer dict validator of claim C1: field `"a"` is a list of dicts
requiring `"b"` to be a string. -/
def outerC1 : Validator := .dict [("a", listC1)] [] false

/-- The input `{"a": [{"b": 1}]}` of claim C1. -/
def inputC1 : Value := .dict [("a", .list [.dict [("b", .int 1)]])]



/-! ## The exception-explicit interpreter (C6) -/

/-- `datetime.datetime.strptime(value, self.format_str)` as a fallible
operation: `.error` is the `ValueError` it raises on a mismatch. -/
def strptimeExc (fmt : String × (String → Option Int)) (s : String) :
    Except String Int :=
  match fmt.2 s with
  | some d => .ok d
  | Option.none =>
    .error ("ValueError: time data does not match format " ++ fmt.1)

mutual

/-- The `validate` methods again, with every Python operation that can
raise an exception made explicit in the `Except` monad; a `.error`
outcome models an exception escaping `validate`.  The only raising
operation reachable in the core validators is `strptime`
(`DateValidator.validate`, line 191), whose `ValueError` the source
catches (lines 190-195); an exception from a recursive child validation
would propagate to the caller, as in Python. -/
def validateExc : Validator → Value → Except String ValidationResult
  | .string cfg, v =>
    match v with
    | .str s =>
      .ok (fromErrors (
        (if s.length < cfg.min_length then
          [⟨"String length must be at least " ++ toString cfg.min_length ++
            " characters", Option.none, []⟩] else [])
        ++ (match cfg.max_length with
            | some m =>
              if s.length > m then
                [⟨"String length must not exceed " ++ toString m ++
                  " characters", Option.none, []⟩] else []
            | Option.none => [])
        ++ (match cfg.pattern with
            | some p =>
              if p.2 s then [] else
                [⟨"String does not match required pattern " ++ p.1,
                  Option.none, []⟩]
            | Option.none => [])
        ++ (match cfg.allowed_values with
            | some (a :: rest) =>
              if s ∈ a :: rest then [] else
                [⟨"Value must be one of: " ++ String.intercalate ", " (a :: rest),
                  Option.none, []⟩]
            | _ => [])))
    | v => .ok (fromErrors [typeError "string" v])
  | .number cfg, v =>
    if cfg.integer_only && !isPyInt v then
      .ok (fromErrors [typeError "integer" v])
    else if !isPyNum v then
      .ok (fromErrors [typeError "number" v])
    else
      .ok (fromErrors (numberRangeErrors cfg (pyNum v)))
  | .boolean, v =>
    if isBool v then .ok (fromErrors []) else .ok (fromErrors [typeError "boolean" v])
  | .date cfg, v =>
    match v, cfg.format_str with
    | .str s, some fmt =>
      (match strptimeExc fmt s with
        | .ok d => .ok (fromErrors (dateRangeErrors cfg d))
        | .error _ =>
          .ok (fromErrors
            [⟨"Date string does not match format " ++ fmt.1, Option.none, []⟩]))
    | .date d, _ => .ok (fromErrors (dateRangeErrors cfg d))
    | v, _ => .ok (fromErrors [typeError "date" v])
  | .list item_validator min_length max_length unique_items, v =>
    match v with
    | .list xs =>
      let checks :=
        (if xs.length < min_length then
          [⟨"List must contain at least " ++ toString min_length ++ " items",
            Option.none, []⟩] else [])
        ++ (match max_length with
            | some m =>
              if xs.length > m then
                [⟨"List must not contain more than " ++ toString m ++ " items",
                  Option.none, []⟩] else []
            | Option.none => [])
        ++ (if unique_items ∧ xs.length ≠ (xs.map pyStr).dedup.length then
              [⟨"List items must be unique", Option.none, []⟩] else [])
      (match item_validator with
        | some iv =>
          (listItemErrorsExc iv xs 0).map (fun es => fromErrors (checks ++ es))
        | Option.none => .ok (fromErrors (checks ++ [])))
    | v => .ok (fromErrors [typeError "list" v])
  | .dict schema required_fields allow_unknown, v =>
    match v with
    | .dict entries =>
      let checks :=
        (match required_fields.filter (fun f => (entries.lookup f).isNone) with
          | [] => []
          | m :: ms =>
            [⟨"Missing required fields: " ++ String.intercalate ", " (m :: ms),
              Option.none, []⟩])
        ++ (if allow_unknown then [] else
              match (entries.map Prod.fst).filter
                  (fun f => (schema.lookup f).isNone) with
              | [] => []
              | u :: us =>
                [⟨"Unknown fields: " ++ String.intercalate ", " (u :: us),
                  Option.none, []⟩])
      (dictFieldErrorsExc schema entries).map
        (fun es => fromErrors (checks ++ es))
    | v => .ok (fromErrors [typeError "dictionary" v])
  | .union [], _ => .ok ⟨true, []⟩
  | .union (v0 :: rest), v => unionGoExc (v0 :: rest) v []
  | .opt vd, v =>
    match v with
    | .none => .ok ⟨true, []⟩
    | v => validateExc vd v
termination_by v _ => (sizeOf v, 0)

/-- Exception-explicit item loop of `ListValidator.validate`. -/
def listItemErrorsExc (iv : Validator) :
    List Value → Nat → Except String (List ValidationError)
  | [], _ => .ok []
  | x :: xs, i =>
    match validateExc iv x with
    | .ok r =>
      (listItemErrorsExc iv xs (i + 1)).map
        (fun rest => (if r.is_valid then [] else r.errors.map (prefixIndex i)) ++ rest)
    | .error e => .error e
termination_by xs _ => (sizeOf iv, 1 + sizeOf xs)

/-- Exception-explicit field loop of `DictValidator.validate`. -/
def dictFieldErrorsExc :
    List (String × Validator) → List (String × Value) →
      Except String (List ValidationError)
  | [], _ => .ok []
  | (f, vd) :: rest, entries =>
    match entries.lookup f with
    | some xv =>
      (match validateExc vd xv with
        | .ok r =>
          (dictFieldErrorsExc rest entries).map
            (fun tail =>
              (if r.is_valid then [] else r.errors.map (prefixField f)) ++ tail)
        | .error e => .error e)
    | Option.none =>
      (dictFieldErrorsExc rest entries).map (fun tail => [] ++ tail)
termination_by schema _ => (sizeOf schema, 0)

/-- Exception-explicit loop of `UnionValidator.validate`. -/
def unionGoExc :
    List Validator → Value → List ValidationError →
      Except String ValidationResult
  | [], _, acc => .ok (ValidationResult.addError ⟨false, []⟩ (unionAggregate acc))
  | vd :: rest, v, acc =>
    match validateExc vd v with
    | .ok r => if r.is_valid then .ok r else unionGoExc rest v (acc ++ r.errors)
    | .error e => .error e
termination_by vs _ _ => (sizeOf vs, 0)

end

/-! ## The schema-to-validator compiler (C2) -/

/-- The message of the `TypeError` Python raises when the abstract class
`Validator` is instantiated (it has the abstract method `validate`). -/
def abstractValidatorTypeError : String :=
  "TypeError: Can\x27t instantiate abstract class Validator with abstract method validate"

/-- A JSON-schema node as consumed by `JSONSchemaValidator` (a Python
dict).  Each field models the result of the corresponding `.get` call
together with its default: `type_tag` is `schema.get("type")` (absent
key gives `Option.none`), `minLength` is `schema.get("minLength", 0)`,
and so on; `additionalProperties` defaults to `True`.  As in
`StringCfg`, a `pattern` is the regex source text with its match
predicate. -/
inductive JSchema where
  | mk (type_tag : Option String)
      (minLength : Nat) (maxLength : Option Nat)
      (pattern : Option (String × (String → Bool)))
      (enum : Option (List String))
      (minimum : Option Rat) (maximum : Option Rat)
      (items : Option JSchema)
      (minItems : Nat) (maxItems : Option Nat) (uniqueItems : Bool)
      (properties : List (String × JSchema))
      (required : List String)
      (additionalProperties : Bool)

mutual

/-- `JSONSchemaValidator._create_validator_for_schema` (lines 640-676).
A `.error` outcome models the `TypeError` Python raises when the default
branch executes `Validator()` (line 676): `Validator` is abstract, so
instantiating it raises instead of producing a passthrough validator.
An `"array"` schema without an `"items"` key calls this function on the
empty schema `{}` (line 660), whose missing `"type"` reaches the same
default branch; that call on the constant `{}` is unfolded here so that
the recursion stays structural.  The per-field dispatch of
`_build_validator_from_schema` (lines 596-631) duplicates this function
case for case (including `Validator()` at line 630), so `schemaValidators`
reuses it for each property. -/
def createValidatorForSchema : JSchema → Except String Validator
  | .mk type_tag minLength maxLength pat enum minimum maximum items
      minItems maxItems uniqueItems properties required _addP =>
    match type_tag with
    | some "string" => .ok (.string ⟨minLength, maxLength, pat, enum⟩)
    | some "number" => .ok (.number ⟨minimum, maximum, false, true, true⟩)
    | some "integer" => .ok (.number ⟨minimum, maximum, true, true, true⟩)
    | some "boolean" => .ok .boolean
    | some "array" =>
      (match items with
        | some itemSchema =>
          (createValidatorForSchema itemSchema).map
            (fun iv => .list (some iv) minItems maxItems uniqueItems)
        | Option.none => .error abstractValidatorTypeError)
    | some "object" =>
      (schemaValidators properties).map
        (fun svs => .dict svs
          ((properties.filter (fun p => required.contains p.1)).map Prod.fst)
          false)
    | _ => .error abstractValidatorTypeError
termination_by s => sizeOf s

/-- The property loop of `_build_validator_from_schema` (lines 590-632):
build one validator per property, in order; a `TypeError` on any
property aborts the whole construction. -/
def schemaValidators :
    List (String × JSchema) → Except String (List (String × Validator))
  | [] => .ok []
  | (f, fs) :: rest =>
    match createValidatorForSchema fs with
    | .ok vd => (schemaValidators rest).map (fun tail => (f, vd) :: tail)
    | .error e => .error e
termination_by l => sizeOf l

end

/-- `JSONSchemaValidator.__init__` with `_build_validator_from_schema`
(lines 581-638), producing the `DictValidator` stored in
`dict_validator`, to which `JSONSchemaValidator.validate` (lines
678-680) delegates.  `required_fields` collects, in property order, the
properties listed in `required`; `allow_unknown` is
`not schema.get("additionalProperties", True)`. -/
def buildValidatorFromSchema : JSchema → Except String Validator
  | .mk _type_tag _minLength _maxLength _pat _enum _minimum _maximum _items
      _minItems _maxItems _uniqueItems properties required addP =>
    (schemaValidators properties).map
      (fun svs => .dict svs
        ((properties.filter (fun p => required.contains p.1)).map Prod.fst)
        (!addP))

/-- The schema `{"type": "null"}` — an unsupported type tag. -/
def unknownTypeFieldSchema : JSchema :=
  .mk (some "null") 0 Option.none Option.none Option.none Option.none
    Option.none Option.none 0 Option.none false [] [] true

/-- The failing input of C2: the schema
`{"properties": {"x": {"type": "null"}}}`. -/
def unknownTypeSchema : JSchema :=
  .mk Option.none 0 Option.none Option.none Option.none Option.none
    Option.none Option.none 0 Option.none false
    [("x", unknownTypeFieldSchema)] [] true

/-! ## Basic lemmas about result construction -/

theorem foldl_addError_ne_nil (es : List ValidationError) (r : ValidationResult)
    (h : es ≠ []) :
    es.foldl ValidationResult.addError r = ⟨false, r.errors ++ es⟩ := by
  induction es generalizing r with
  | nil => exact absurd rfl h
  | cons e es ih =>
    simp only [List.foldl_cons]
    cases es with
    | nil => simp [ValidationResult.addError]
    | cons e2 es2 =>
      rw [ih _ (by simp)]
      simp [ValidationResult.addError]

/-- `fromErrors` explicitly: valid exactly when the error list is empty. -/
theorem fromErrors_eq (es : List ValidationError) :
    fromErrors es = ⟨es.isEmpty, es⟩ := by
  cases es with
  | nil => rfl
  | cons e es =>
    rw [fromErrors, foldl_addError_ne_nil _ _ (by simp)]
    simp

mutual

/-- Every result produced by `validate` is a `ValidationResult(True)` to
which errors were added in order by `add_error`. -/
theorem validate_shape : ∀ (v : Validator) (x : Value),
    ∃ es, validate v x = fromErrors es
  | .string cfg, x => by
    rw [validate.eq_def]
    cases x <;> exact ⟨_, rfl⟩
  | .number cfg, x => by
    rw [validate.eq_def]
    dsimp only
    split
    · exact ⟨_, rfl⟩
    · split
      · exact ⟨_, rfl⟩
      · exact ⟨_, rfl⟩
  | .boolean, x => by
    rw [validate.eq_def]
    dsimp only
    split
    · exact ⟨_, rfl⟩
    · exact ⟨_, rfl⟩
  | .date cfg, x => by
    rw [validate.eq_def]
    cases x <;> try exact ⟨_, rfl⟩
    case str s =>
      dsimp only
      cases hf : cfg.format_str with
      | none => exact ⟨_, rfl⟩
      | some fmt =>
        dsimp only
        cases hp : fmt.2 s
        · exact ⟨_, rfl⟩
        · exact ⟨_, rfl⟩
  | .list item_validator min_length max_length unique_items, x => by
    rw [validate.eq_def]
    cases x <;> exact ⟨_, rfl⟩
  | .dict schema required_fields allow_unknown, x => by
    rw [validate.eq_def]
    cases x <;> exact ⟨_, rfl⟩
  | .union [], x => by
    rw [validate.eq_def]
    exact ⟨[], rfl⟩
  | .union (v0 :: rest), x => by
    rw [validate.eq_def]
    exact unionGo_shape (v0 :: rest) x []
  | .opt vd, x => by
    rw [validate.eq_def]
    cases x
    case none => exact ⟨[], rfl⟩
    all_goals exact validate_shape vd _
termination_by v _ => (sizeOf v, 0)

/-- Every result produced by the union loop has the same shape. -/
theorem unionGo_shape : ∀ (vs : List Validator) (x : Value)
    (acc : List ValidationError), ∃ es, unionGo vs x acc = fromErrors es
  | [], x, acc => by
    rw [unionGo.eq_def]
    dsimp only
    exact ⟨[unionAggregate acc], rfl⟩
  | vd :: rest, x, acc => by
    rw [unionGo.eq_def]
    dsimp only
    split
    · exact validate_shape vd x
    · exact unionGo_shape rest x (acc ++ (validate vd x).errors)
termination_by vs _ _ => (sizeOf vs, 0)

end

/-- C3: for every validator and value, the returned `ValidationResult` is
valid if and only if its error list is empty. -/
theorem result_valid_iff_errors_nil (v : Validator) (x : Value) :
    (validate v x).is_valid = true ↔ (validate v x).errors = [] := by
  obtain ⟨es, h⟩ := validate_shape v x
  rw [h, fromErrors_eq]
  cases es <;> simp


/-! ## Union validator semantics (C5) -/

/-- The union semantics as the specification words it: the result of the
first candidate in order that accepts the value; if every candidate
rejects, a single aggregate error whose details retain every candidate's
failure message, in order. -/
def unionSpec (vs : List Validator) (x : Value) : ValidationResult :=
  match vs.find? (fun vd => (validate vd x).is_valid) with
  | some vd => validate vd x
  | Option.none =>
    ⟨false, [⟨"Value did not match any of the expected types", Option.none,
      ((vs.map (fun vd => (validate vd x).errors)).flatten).map
        (fun e => e.message)⟩]⟩

theorem unionGo_eq (vs : List Validator) (x : Value)
    (acc : List ValidationError) :
    unionGo vs x acc =
      match vs.find? (fun vd => (validate vd x).is_valid) with
      | some vd => validate vd x
      | Option.none =>
        ⟨false, [unionAggregate
          (acc ++ (vs.map (fun vd => (validate vd x).errors)).flatten)]⟩ := by
  induction vs generalizing acc with
  | nil =>
    rw [unionGo.eq_def]
    simp [ValidationResult.addError]
  | cons vd rest ih =>
    rw [unionGo.eq_def]
    dsimp only
    by_cases h : (validate vd x).is_valid = true
    · simp [List.find?, h]
    · rw [if_neg (by simp [h])]
      rw [ih]
      simp only [List.find?, Bool.not_eq_true] at *
      rw [h]
      simp [List.append_assoc]

/-- C5: on a non-empty candidate list the union validator realises the
first-success semantics, and on total failure the single aggregate error
retaining every candidate's failure message. -/
theorem union_first_success (vs : List Validator) (x : Value) (h : vs ≠ []) :
    validate (.union vs) x = unionSpec vs x := by
  cases vs with
  | nil => exact absurd rfl h
  | cons v0 rest =>
    rw [validate.eq_def]
    dsimp only
    rw [unionGo_eq]
    unfold unionSpec
    cases (v0 :: rest).find? (fun vd => (validate vd x).is_valid) with
    | some vd => rfl
    | none => simp [unionAggregate]

/-- Witness for C5 at the concrete candidate list `[BooleanValidator()]`
and value `True`. -/
theorem union_first_success_witness :
    ([Validator.boolean] ≠ []) ∧
      validate (.union [Validator.boolean]) (.bool true) =
        unionSpec [Validator.boolean] (.bool true) :=
  ⟨List.cons_ne_nil _ _, union_first_success _ _ (List.cons_ne_nil _ _)⟩

/-! ## Primitive validators and type mismatches (C4, C9, C10) -/

/-- C4: for each primitive validator, an input whose runtime type does
not match the expected type yields exactly the single type-mismatch
error; every further constraint check is skipped.  (For `DateValidator`,
"wrong runtime type" means neither a date nor — when a format string is
configured — a string.) -/
theorem primitive_type_mismatch (v : Value) :
    (∀ cfg : StringCfg, isStr v = false →
        validate (.string cfg) v = fromErrors [typeError "string" v])
  ∧ (∀ cfg : NumberCfg, cfg.integer_only = true → isPyInt v = false →
        validate (.number cfg) v = fromErrors [typeError "integer" v])
  ∧ (∀ cfg : NumberCfg, cfg.integer_only = false → isPyNum v = false →
        validate (.number cfg) v = fromErrors [typeError "number" v])
  ∧ (isBool v = false → validate .boolean v = fromErrors [typeError "boolean" v])
  ∧ (∀ cfg : DateCfg, isDate v = false → (isStr v = true → cfg.format_str = Option.none) →
        validate (.date cfg) v = fromErrors [typeError "date" v]) := by
  refine ⟨fun cfg h => ?_, fun cfg h1 h2 => ?_, fun cfg h1 h2 => ?_,
    fun h => ?_, fun cfg h1 h2 => ?_⟩
  · cases v <;> rw [validate.eq_def]
    simp [isStr] at h
  · rw [validate.eq_def]; simp [h1, h2]
  · rw [validate.eq_def]; simp [h1, h2]
  · rw [validate.eq_def]; simp [h]
  · cases v <;> rw [validate.eq_def]
    case str s =>
      dsimp only
      rw [h2 rfl]
    case date d => simp [isDate] at h1

/-- Witness for C4: one wrong-typed concrete input per primitive
validator. -/
theorem primitive_type_mismatch_witness :
    validate (.string {}) (.int 3) = fromErrors [typeError "string" (.int 3)]
  ∧ validate (.number { integer_only := true }) (.float 3) =
      fromErrors [typeError "integer" (.float 3)]
  ∧ validate (.number {}) (.str "x") = fromErrors [typeError "number" (.str "x")]
  ∧ validate .boolean (.int 0) = fromErrors [typeError "boolean" (.int 0)]
  ∧ validate (.date {}) (.int 5) = fromErrors [typeError "date" (.int 5)] :=
  ⟨(primitive_type_mismatch _).1 _ rfl,
    (primitive_type_mismatch _).2.1 _ rfl rfl,
    (primitive_type_mismatch _).2.2.1 _ rfl rfl,
    (primitive_type_mismatch _).2.2.2.1 rfl,
    (primitive_type_mismatch _).2.2.2.2 _ rfl (fun hs => absurd hs (by simp [isStr]))⟩

/-- C9: with `integer_only` set, any value that is not a Python `int`
(where `bool` counts as `int`) is rejected with exactly the
integer-type-mismatch error; in particular the result is invalid. -/
theorem integer_only_rejects_non_integral (cfg : NumberCfg) (v : Value)
    (h1 : cfg.integer_only = true) (h2 : isPyInt v = false) :
    validate (.number cfg) v = fromErrors [typeError "integer" v]
  ∧ (validate (.number cfg) v).is_valid = false := by
  have h : validate (.number cfg) v = fromErrors [typeError "integer" v] := by
    rw [validate.eq_def]; simp [h1, h2]
  refine ⟨h, ?_⟩
  rw [h, fromErrors_eq]
  rfl

/-- Witness for C9 at `NumberValidator(integer_only=True).validate(3.0)`. -/
theorem integer_only_rejects_non_integral_witness :
    validate (.number { integer_only := true }) (.float 3) =
      fromErrors [typeError "integer" (.float 3)]
  ∧ (validate (.number { integer_only := true }) (.float 3)).is_valid = false :=
  integer_only_rejects_non_integral { integer_only := true } (.float 3) rfl rfl

/-- C10: booleans pass `NumberValidator`'s integer type check (Python's
`bool` subclasses `int`), so with `integer_only` set and no violated
range or sign constraint the result is valid. -/
theorem number_validator_accepts_bool (cfg : NumberCfg) (b : Bool)
    (_h1 : cfg.integer_only = true)
    (h2 : numberRangeErrors cfg (pyNum (.bool b)) = []) :
    (validate (.number cfg) (.bool b)).is_valid = true := by
  rw [validate.eq_def]
  simp [isPyInt, isPyNum, h2, fromErrors]

/-- Witness for C10: `NumberValidator(integer_only=True)` accepts both
`True` and `False`. -/
theorem number_validator_accepts_bool_witness :
    ((NumberCfg.mk Option.none Option.none true true true).integer_only = true)
  ∧ numberRangeErrors (NumberCfg.mk Option.none Option.none true true true)
      (pyNum (.bool true)) = []
  ∧ (validate (.number (NumberCfg.mk Option.none Option.none true true true))
      (.bool true)).is_valid = true
  ∧ (validate (.number (NumberCfg.mk Option.none Option.none true true true))
      (.bool false)).is_valid = true :=
  ⟨rfl, rfl,
    number_validator_accepts_bool _ true rfl rfl,
    number_validator_accepts_bool _ false rfl rfl⟩


/-! ## Field-path composition on nested errors (C1) -/

/-- C1, counterexample: validating `{"a": [{"b": 1}]}` against the
schema whose field `"a"` is a list of dicts requiring `"b"` to be a
string yields the single field path `"a.[0].b"` — the parent field is
joined to the child path with `"."` unconditionally — and not the
claimed `"a[0].b"`. -/
theorem nested_field_path_counterexample :
    (validate outerC1 inputC1).errors.map (fun e => e.field) = [some "a.[0].b"]
  ∧ ¬ (validate outerC1 inputC1).errors.map (fun e => e.field) = [some "a[0].b"] := by
  have h : (validate outerC1 inputC1).errors.map (fun e => e.field)
      = [some "a.[0].b"] := by
    simp [validate, outerC1, inputC1, listC1, innerDictC1, listItemErrors,
      dictFieldErrors, fromErrors, ValidationResult.addError, prefixField,
      prefixIndex, dotted, typeError, List.lookup]
    decide
  exact ⟨h, by rw [h]; decide⟩

/-- C1, amended: error field paths compose parent-to-child by prepending
the parent field name or element index followed by `"."` whenever the
child error already carries a non-empty field path; the example input
therefore produces the exact field path `"a.[0].b"`. -/
theorem nested_field_path_composition :
    validate outerC1 inputC1 =
      ⟨false, [⟨"Expected string but got int", some "a.[0].b", []⟩]⟩
  ∧ (∀ (f g : String) (e : ValidationError), e.field = some g → g.isEmpty = false →
      (prefixField f e).field = some (f ++ "." ++ g))
  ∧ (∀ (i : Nat) (g : String) (e : ValidationError), e.field = some g → g.isEmpty = false →
      (prefixIndex i e).field = some ("[" ++ toString i ++ "]" ++ "." ++ g))
  ∧ (∀ (f : String) (e : ValidationError), e.field = Option.none →
      (prefixField f e).field = some f)
  ∧ (∀ (i : Nat) (e : ValidationError), e.field = Option.none →
      (prefixIndex i e).field = some ("[" ++ toString i ++ "]")) := by
  refine ⟨?_, fun f g e hg hne => ?_, fun i g e hg hne => ?_,
    fun f e hn => ?_, fun i e hn => ?_⟩
  · simp [validate, outerC1, inputC1, listC1, innerDictC1, listItemErrors,
      dictFieldErrors, fromErrors, ValidationResult.addError, prefixField,
      prefixIndex, dotted, typeError, List.lookup]
    decide
  · simp [prefixField, dotted, hg, hne, String.append_assoc]
  · simp [prefixIndex, dotted, hg, hne, String.append_assoc]
    congr 2
  · simp [prefixField, dotted, hn]
  · simp [prefixIndex, dotted, hn]

/-- Witness for the amended C1 at the concrete nested input and at a
concrete child error carrying the field `"[0].b"`. -/
theorem nested_field_path_composition_witness :
    validate outerC1 inputC1 =
      ⟨false, [⟨"Expected string but got int", some "a.[0].b", []⟩]⟩
  ∧ (prefixField "a" ⟨"Expected string but got int", some "[0].b", []⟩).field
      = some "a.[0].b" :=
  ⟨nested_field_path_composition.1, by
    have h := nested_field_path_composition.2.1 "a" "[0].b"
      ⟨"Expected string but got int", some "[0].b", []⟩ rfl rfl
    rw [h]
    decide⟩

/-! ## Mutation of aggregated errors (C7) -/

/-- C7, counterexample: composite validators do not leave child
`ValidationError` objects unchanged — `DictValidator.validate` (lines
301-302) reassigns `error.field` on the child's own error object before
adding it to the parent result (`prefixIndex`/`prefixField` model exactly
this in-place assignment).  Concretely, the error produced inside
`{"b": StringValidator()}` for input `{"b": 1}` is constructed with
`field = None` by `StringValidator` and ends up with `field = "b"`. -/
theorem validation_error_field_mutated :
    (prefixField "b" ⟨"Expected string but got int", Option.none, []⟩).field
      ≠ (⟨"Expected string but got int", Option.none, []⟩ : ValidationError).field
  ∧ (validate (.string {}) (.int 1)).errors
      = [⟨"Expected string but got int", Option.none, []⟩]
  ∧ (validate innerDictC1 (.dict [("b", .int 1)])).errors
      = [⟨"Expected string but got int", some "b", []⟩] := by
  refine ⟨by decide, ?_, ?_⟩
  · rw [validate.eq_def]
    rfl
  · simp [validate, innerDictC1, dictFieldErrors, fromErrors,
      ValidationResult.addError, prefixField, dotted, typeError, List.lookup]
    decide

/-- C7, amended: the `message` and `details` of a `ValidationError` are
never changed by the framework after construction; the `field` attribute,
however, is rewritten in place by composite validators when they
aggregate child errors (prepending the parent field or index). -/
theorem validation_error_frame :
    ∀ (f : String) (i : Nat) (e : ValidationError),
      (prefixField f e).message = e.message
    ∧ (prefixField f e).details = e.details
    ∧ (prefixIndex i e).message = e.message
    ∧ (prefixIndex i e).details = e.details :=
  fun _ _ _ => ⟨rfl, rfl, rfl, rfl⟩


/-! ## Determinism of validation (C8) -/

/-- C8: validation is a pure computation on the validator configuration
and the input value.  The source `validate` methods read only their
(never-reassigned) configuration attributes and build fresh
result/error objects on every call, so a call is modelled by the pure
function `validate`; two calls with the same validator and value
therefore agree in validity and in their error messages. -/
theorem validate_deterministic (v : Validator) (x : Value)
    (r1 r2 : ValidationResult)
    (h1 : validate v x = r1) (h2 : validate v x = r2) :
    r1.is_valid = r2.is_valid
  ∧ r1.errors.map (fun e => e.message) = r2.errors.map (fun e => e.message) := by
  subst h1
  subst h2
  exact ⟨rfl, rfl⟩

/-- Witness for C8: two runs of `BooleanValidator` on `True`. -/
theorem validate_deterministic_witness :
    (⟨true, []⟩ : ValidationResult).is_valid
      = (⟨true, []⟩ : ValidationResult).is_valid
  ∧ ((⟨true, []⟩ : ValidationResult)).errors.map (fun e => e.message)
      = ((⟨true, []⟩ : ValidationResult)).errors.map (fun e => e.message) :=
  validate_deterministic .boolean (.bool true) ⟨true, []⟩ ⟨true, []⟩
    (by rw [validate.eq_def]; rfl) (by rw [validate.eq_def]; rfl)


/-! ## No exceptions escape validation (C6) -/

mutual

theorem validateExc_ok : ∀ (v : Validator) (x : Value),
    validateExc v x = Except.ok (validate v x)
  | .string cfg, x => by
    rw [validateExc.eq_def, validate.eq_def]
    cases x <;> rfl
  | .number cfg, x => by
    rw [validateExc.eq_def, validate.eq_def]
    dsimp only
    split
    · rfl
    · split <;> rfl
  | .boolean, x => by
    rw [validateExc.eq_def, validate.eq_def]
    dsimp only
    split <;> rfl
  | .date cfg, x => by
    rw [validateExc.eq_def, validate.eq_def]
    cases x <;> try rfl
    case str s =>
      dsimp only
      cases hf : cfg.format_str with
      | none => rfl
      | some fmt =>
        simp only [strptimeExc]
        cases hp : fmt.2 s <;> rfl
  | .list item_validator min_length max_length unique_items, x => by
    rw [validateExc.eq_def, validate.eq_def]
    cases x <;> try rfl
    case list xs =>
      dsimp only
      cases item_validator with
      | none => rfl
      | some iv =>
        dsimp only
        rw [listItemErrorsExc_ok iv xs 0]
        rfl
  | .dict schema required_fields allow_unknown, x => by
    rw [validateExc.eq_def, validate.eq_def]
    cases x <;> try rfl
    case dict entries =>
      dsimp only
      rw [dictFieldErrorsExc_ok schema entries]
      rfl
  | .union [], x => by
    rw [validateExc.eq_def, validate.eq_def]
  | .union (v0 :: rest), x => by
    rw [validateExc.eq_def, validate.eq_def]
    exact unionGoExc_ok (v0 :: rest) x []
  | .opt vd, x => by
    rw [validateExc.eq_def, validate.eq_def]
    cases x <;> try rfl
    all_goals exact validateExc_ok vd _
termination_by v _ => (sizeOf v, 0)

theorem listItemErrorsExc_ok : ∀ (iv : Validator) (xs : List Value) (i : Nat),
    listItemErrorsExc iv xs i = Except.ok (listItemErrors iv xs i)
  | iv, [], i => by
    rw [listItemErrorsExc.eq_def, listItemErrors.eq_def]
  | iv, x :: xs, i => by
    rw [listItemErrorsExc.eq_def, listItemErrors.eq_def]
    dsimp only
    rw [validateExc_ok iv x, listItemErrorsExc_ok iv xs (i + 1)]
    rfl
termination_by iv xs _ => (sizeOf iv, 1 + sizeOf xs)

theorem dictFieldErrorsExc_ok :
    ∀ (schema : List (String × Validator)) (entries : List (String × Value)),
      dictFieldErrorsExc schema entries = Except.ok (dictFieldErrors schema entries)
  | [], entries => by
    rw [dictFieldErrorsExc.eq_def, dictFieldErrors.eq_def]
  | (f, vd) :: rest, entries => by
    rw [dictFieldErrorsExc.eq_def, dictFieldErrors.eq_def]
    dsimp only
    cases hl : entries.lookup f with
    | none =>
      dsimp only
      rw [dictFieldErrorsExc_ok rest entries]
      rfl
    | some xv =>
      dsimp only
      rw [validateExc_ok vd xv, dictFieldErrorsExc_ok rest entries]
      rfl
termination_by schema _ => (sizeOf schema, 0)

theorem unionGoExc_ok : ∀ (vs : List Validator) (x : Value)
    (acc : List ValidationError),
      unionGoExc vs x acc = Except.ok (unionGo vs x acc)
  | [], x, acc => by
    rw [unionGoExc.eq_def, unionGo.eq_def]
  | vd :: rest, x, acc => by
    rw [unionGoExc.eq_def, unionGo.eq_def]
    dsimp only
    rw [validateExc_ok vd x]
    dsimp only
    split
    · rfl
    · exact unionGoExc_ok rest x (acc ++ (validate vd x).errors)
termination_by vs _ _ => (sizeOf vs, 0)

end

/-- C6: no exception escapes `validate` — for every core validator and
every input value, the exception-explicit interpreter returns normally,
and with exactly the structured result of `validate` (whose errors, by
`result_valid_iff_errors_nil`, are the only report of invalid input). -/
theorem validate_never_raises (v : Validator) (x : Value) :
    validateExc v x = Except.ok (validate v x) :=
  validateExc_ok v x

/-! ## Unknown schema type tags (C2) -/

/-- C2 (code bug): compiling a schema with an unsupported property type
tag does not produce an always-valid passthrough validator — the
default branch executes `Validator()` (line 630 / 676), and Python
raises `TypeError` because `Validator` is an abstract class with
abstract method `validate`, so `JSONSchemaValidator({"properties":
{"x": {"type": "null"}}})` fails at construction.  The passthrough
behaviour claimed by the spec matches the source's own comment
"Default to allowing any value"; the instantiation of the abstract
class is the slip. -/
theorem unknown_type_tag_raises_type_error :
    buildValidatorFromSchema unknownTypeSchema
      = Except.error abstractValidatorTypeError := by
  rw [buildValidatorFromSchema.eq_def]
  simp only [unknownTypeSchema, unknownTypeFieldSchema]
  rw [schemaValidators.eq_def]
  dsimp only
  rw [createValidatorForSchema.eq_def]
  rfl

end ValidationTesting
